import Mathlib

/-!
Shallow embedding of `src/checkUp2Date_v3.py` (the latest of the three script
versions; earlier versions are noted where a claim cites them).  The script
checks whether pinned flake inputs recorded in a lock file have fallen behind
their upstream GitHub branch.  Pure functions of the script become Lean
functions; the network is modelled as an explicit `Upstream` response oracle,
and every issued request is logged so that fetch-count properties are provable.
Python exceptions that the script leaves uncaught are modelled with an
explicit `PyExc` error channel (`Except`).
-/

namespace Flake2Date

/-- Python truthiness of an optional string: `None` and the empty string are
falsy, every other string is truthy.  Used for `if not branch:` and
`if token:` in the source. -/
def pyTruthy : Option String → Bool
  | none => false
  | some s => decide (s ≠ "")

/-- Python f-string interpolation of a value that may be `None`:
`f"{x}"` renders `None` as the literal string "None".  Used where the source
interpolates `branch` into the branches URL after `json().get("default_branch")`
may have returned `None`. -/
def pyStrOfOpt : Option String → String
  | some s => s
  | none => "None"

/-! ### Wire timestamp parsing

`datetime.strptime(date_str, "%Y-%m-%dT%H:%M:%SZ")` followed by
`.replace(tzinfo=timezone.utc)` and `int(dt.timestamp())` in
`get_upstream_info` (src/checkUp2Date_v3.py lines 49-52).  We model the fixed
wire pattern `YYYY-MM-DDTHH:MM:SSZ` (four-digit year, two-digit fields,
literal separators, literal `Z`), with the field-range and calendar validation
that `strptime`/`datetime` perform; a non-matching string raises `ValueError`,
modelled as parse result `none`.  `.timestamp()` of a timezone-aware UTC
datetime is independent of the host timezone, so the epoch value is computed
by pure calendar arithmetic with no timezone input. -/

/-- Numeric value of a decimal digit character, `none` otherwise. -/
def digitVal (c : Char) : Option Nat :=
  if c.isDigit then some (c.toNat - 48) else none

/-- Two decimal digits to a number. -/
def num2 (a b : Char) : Option Nat :=
  match digitVal a, digitVal b with
  | some x, some y => some (10 * x + y)
  | _, _ => none

/-- Four decimal digits to a number. -/
def num4 (a b c d : Char) : Option Nat :=
  match num2 a b, num2 c d with
  | some x, some y => some (100 * x + y)
  | _, _ => none

/-- Gregorian leap-year rule, as used by Python's `datetime` calendar. -/
def isLeapYear (y : Nat) : Bool :=
  y % 4 == 0 && (y % 100 != 0 || y % 400 == 0)

/-- Number of days in a month of a given year. -/
def daysInMonth (y m : Nat) : Nat :=
  if m = 2 then (if isLeapYear y then 29 else 28)
  else if m = 4 ∨ m = 6 ∨ m = 9 ∨ m = 11 then 30
  else 31

/-- Days in the months of year `y` strictly before month `m`. -/
def daysBeforeMonth (y m : Nat) : Nat :=
  (List.range (m - 1)).foldl (fun acc i => acc + daysInMonth y (i + 1)) 0

/-- Days in the proleptic Gregorian calendar strictly before January 1 of
year `y` (year 1 based, so `daysBeforeYear 1 = 0`). -/
def daysBeforeYear (y : Nat) : Nat :=
  (y - 1) * 365 + (y - 1) / 4 - (y - 1) / 100 + (y - 1) / 400

/-- Days from the epoch 1970-01-01 to January 1 of year 1, i.e. the day
ordinal of the Unix epoch in the year-1-based count. -/
def epochDayOrdinal : Nat := 719162

/-- Seconds since the Unix epoch of a UTC civil datetime. -/
def epochOfCivil (y mo d h mi s : Nat) : Int :=
  (((daysBeforeYear y + daysBeforeMonth y mo + (d - 1) : Nat) : Int)
      - (epochDayOrdinal : Int)) * 86400
    + ((h * 3600 + mi * 60 + s : Nat) : Int)

/-- Model of parsing the fixed wire format `YYYY-MM-DDTHH:MM:SSZ` to epoch
seconds; `none` models the `ValueError` that `strptime`/`datetime` raise on
any deviation (wrong shape, non-digit, out-of-range field, invalid calendar
date). -/
def parseTimestamp (str : String) : Option Int :=
  match str.toList with
  | [y1, y2, y3, y4, '-', m1, m2, '-', d1, d2, 'T',
     h1, h2, ':', n1, n2, ':', s1, s2, 'Z'] =>
    match num4 y1 y2 y3 y4, num2 m1 m2, num2 d1 d2,
          num2 h1 h2, num2 n1 n2, num2 s1 s2 with
    | some y, some mo, some d, some h, some mi, some s =>
      if 1 ≤ y ∧ 1 ≤ mo ∧ mo ≤ 12 ∧ 1 ≤ d ∧ d ≤ daysInMonth y mo
          ∧ h ≤ 23 ∧ mi ≤ 59 ∧ s ≤ 59 then
        some (epochOfCivil y mo d h mi s)
      else none
    | _, _, _, _, _, _ => none
  | _ => none

/-! ### Presentation of instants

`datetime.fromtimestamp(ts).astimezone()` and `dt_utc.astimezone()` convert
to the host's local timezone purely for display.  The host timezone is
modelled as a whole-hour offset `tz : Int`; it feeds only the rendered
strings, never the comparison. -/

/-- Zero-padded two-digit rendering. -/
def pad2 (n : Nat) : String :=
  if n < 10 then "0" ++ toString n else toString n

/-- Civil date from a day count relative to 1970-01-01 (floor-division based
calendar conversion). -/
def civilFromDays (z0 : Int) : Int × Nat × Nat :=
  let z := z0 + 719468
  let era := z.fdiv 146097
  let doe := (z - era * 146097).toNat
  let yoe := (doe - doe / 1460 + doe / 36524 - doe / 146096) / 365
  let doy := doe - (365 * yoe + yoe / 4 - yoe / 100)
  let mp := (5 * doy + 2) / 153
  let d := doy - (153 * mp + 2) / 5 + 1
  let m := if mp < 10 then mp + 3 else mp - 9
  ((era * 400 + (yoe : Int)) + (if m ≤ 2 then 1 else 0), m, d)

/-- Rendering of a UTC offset as a suffix string. -/
def offsetSuffix (tz : Int) : String :=
  if tz ≥ 0 then "+" ++ pad2 tz.toNat ++ ":00"
  else "-" ++ pad2 (-tz).toNat ++ ":00"

/-- Human-readable rendering of an epoch instant in the host timezone
(presentation only; stands for `astimezone()` display in the source). -/
def renderInstant (tz ts : Int) : String :=
  let shifted := ts + tz * 3600
  let days := shifted.fdiv 86400
  let secs := (shifted - days * 86400).toNat
  let c := civilFromDays days
  toString c.1 ++ "-" ++ pad2 c.2.1 ++ "-" ++ pad2 c.2.2 ++ "T"
    ++ pad2 (secs / 3600) ++ ":" ++ pad2 (secs % 3600 / 60) ++ ":"
    ++ pad2 (secs % 60) ++ offsetSuffix tz

/-! ### Token resolution

`get_token_from_gh_cli` (src/checkUp2Date_v3.py lines 14-22) shells out to
`gh auth token`; the subprocess is modelled by its observable behaviour.
`main` line 142 computes `os.environ.get("GITHUB_TOKEN") or
get_token_from_gh_cli()` — Python `or` takes the left operand when truthy
(non-empty), otherwise evaluates and returns the right one. -/

/-- Observable behaviour of the external `gh` credential helper process:
absent binary (`FileNotFoundError`), non-zero exit (`CalledProcessError`),
or success with some standard output. -/
inductive GhCliBehavior where
  | absent
  | exitNonZero
  | success (stdout : String)
deriving DecidableEq, Repr

/-- Python's `str.strip()`: drop leading and trailing whitespace. -/
def stripStr (s : String) : String :=
  ⟨((s.data.dropWhile Char.isWhitespace).reverse.dropWhile
      Char.isWhitespace).reverse⟩

/-- `get_token_from_gh_cli`: returns the stripped stdout on success, `None`
when the helper is absent or exits non-zero.  (Whitespace-only output strips
to the empty string, which is still `some ""`, not `none`.) -/
def get_token_from_gh_cli : GhCliBehavior → Option String
  | .absent => none
  | .exitNonZero => none
  | .success out => some (stripStr out)

/-- Token resolution of `main` line 142, together with a flag recording
whether the helper process was invoked (Python `or` short-circuits). -/
def resolve_token (envToken : Option String) (gh : GhCliBehavior) :
    Option String × Bool :=
  if pyTruthy envToken then (envToken, false)
  else (get_token_from_gh_cli gh, true)

/-- The `Authorization` header value sent with every request:
`if token: headers["Authorization"] = f"token {token}"`
(src/checkUp2Date_v3.py lines 27-29).  A falsy token (absent or empty)
produces no header. -/
def authHeader (token : Option String) : Option String :=
  if pyTruthy token then some ("token " ++ token.getD "") else none

/-! ### Network model

The two GitHub endpoints used by `get_upstream_info`:
repository metadata (`GET /repos/o/r`, read `default_branch`) and branch
metadata (`GET /repos/o/r/branches/b`, read
`commit.commit.committer.date`).  An `Upstream` oracle maps each request
(including its auth header) to either a `requests.RequestException`
(transport error or `raise_for_status`, including non-JSON bodies, whose
decode error is a `RequestException` subclass) or a decoded JSON view of the
fields the script reads.  A missing JSON field is `none`. -/

/-- Decoded view of the repository-metadata response: the
`default_branch` field as read by `resp.json().get("default_branch")`
(missing field gives `None`, not an exception). -/
structure RepoMetaResp where
  default_branch : Option String
deriving DecidableEq, Repr

/-- Decoded view of the branch response: the string at JSON path
`commit.commit.committer.date`; `none` models a missing key along that path,
which raises `KeyError` in the script. -/
structure BranchResp where
  committerDate : Option String
deriving DecidableEq, Repr

/-- Response oracle for the two endpoints; `Except Unit` failure is a
`requests.RequestException`. -/
structure Upstream where
  meta : String → String → Option String → Except Unit RepoMetaResp
  branch : String → String → String → Option String → Except Unit BranchResp

/-- A network request issued by the script, with the auth header it carried. -/
inductive Request where
  | repoMeta (owner repo : String) (auth : Option String)
  | branch (owner repo branchName : String) (auth : Option String)
deriving DecidableEq, Repr

/-- The auth header carried by a request. -/
def Request.authOf : Request → Option String
  | .repoMeta _ _ a => a
  | .branch _ _ _ a => a

/-- Python exceptions the script leaves uncaught inside
`get_upstream_info`'s second `try` block (only `requests.RequestException`
is caught there): `KeyError` from the `commit.commit.committer.date` lookup
and `ValueError` from `strptime`.  These propagate out of `check_input`
(whose `try` covers only node-field access) and abort the run. -/
inductive PyExc where
  | keyError
  | valueError
deriving DecidableEq, Repr

/-- The second half of `get_upstream_info` (src/checkUp2Date_v3.py lines
42-54): fetch branch metadata, read the committer date, parse it.
`RequestException` is caught and yields `(None, None)`, modelled `.ok none`;
a missing date key or malformed date is an uncaught exception. -/
def branchPhase (up : Upstream) (owner repo branchName : String)
    (auth : Option String) : Except PyExc (Option Int) × List Request :=
  match up.branch owner repo branchName auth with
  | .error _ => (.ok none, [.branch owner repo branchName auth])
  | .ok data =>
    match data.committerDate with
    | none => (.error .keyError, [.branch owner repo branchName auth])
    | some ds =>
      match parseTimestamp ds with
      | none => (.error .valueError, [.branch owner repo branchName auth])
      | some ts => (.ok (some ts), [.branch owner repo branchName auth])

/-- `get_upstream_info` (src/checkUp2Date_v3.py lines 25-54).  Branch
determination: a truthy `branch_hint` is used directly; otherwise one
metadata fetch reads `default_branch` (a `RequestException` there is caught
and yields `(None, None)`; a missing field silently leaves `branch = None`,
which the f-string then interpolates as the literal "None").  The returned
epoch value stands for `int(dt_utc.timestamp())`; the `astimezone()` display
twin is rendered later from the same epoch.  The request log is returned
alongside. -/
def get_upstream_info (up : Upstream) (owner repo : String)
    (branch_hint : Option String) (token : Option String) :
    Except PyExc (Option Int) × List Request :=
  let auth := authHeader token
  if pyTruthy branch_hint then
    branchPhase up owner repo (branch_hint.getD "") auth
  else
    match up.meta owner repo auth with
    | .error _ => (.ok none, [.repoMeta owner repo auth])
    | .ok m =>
      let stepped := branchPhase up owner repo (pyStrOfOpt m.default_branch) auth
      (stepped.1, .repoMeta owner repo auth :: stepped.2)

/-! ### Lock nodes and the per-node check -/

/-- The value mapped to an input name in a node's `inputs` object: usually a
node-name string, but in complex flakes it can be a list (a follows path),
which `isinstance(node_key, str)` distinguishes. -/
inductive InputVal where
  | str (s : String)
  | listVal
deriving DecidableEq, Repr

/-- The node-name string of an input value, `none` for the list form. -/
def InputVal.asStr : InputVal → Option String
  | .str s => some s
  | .listVal => none

/-- One lock-file node, flattened to the fields the script reads.
A `none` in `lockedType`, `lastModified`, `owner` or `repo` stands for the
key (or the whole `locked` object) being absent, which raises `KeyError`
inside `check_input`'s guarded block; all such `KeyError`s are caught there
and produce the identical silent skip, so flattening the access paths is
behaviour-preserving.  `originalRef` is `node_data.get("original",
{}).get("ref")` — absent gives `None`, never an exception.  `inputs` is
`node.get("inputs")` with absent folded to the empty mapping, as the
`.get(..., {})` chain in `main` does. -/
structure NodeData where
  lockedType : Option String
  lastModified : Option Int
  owner : Option String
  repo : Option String
  originalRef : Option String
  inputs : List (String × InputVal)
deriving DecidableEq, Repr

/-- The guarded field-access block of `check_input` (src/checkUp2Date_v3.py
lines 62-72): `none` is the silent `return` (non-github type, or `KeyError`
from a missing field); otherwise the locked timestamp, owner, repo and branch
hint. -/
def parseNode (nd : NodeData) : Option (Int × String × String × Option String) :=
  match nd.lockedType with
  | none => none
  | some t =>
    if t ≠ "github" then none
    else
      match nd.lastModified, nd.owner, nd.repo with
      | some ts, some o, some r => some (ts, o, r, nd.originalRef)
      | _, _, _ => none

/-- Classification of one node's freshness, as printed by `check_input`. -/
inductive Outcome where
  | stale
  | fresh
  | localAhead
  | unresolvable
deriving DecidableEq, BEq, Repr

/-- The comparison step of `check_input` (src/checkUp2Date_v3.py lines
84-102): `is_outdated = downstream_ts < upstream_ts`, then the three print
branches with their `timedelta` lags. -/
def compareInstants (localTs upstreamTs : Int) : Outcome × Int :=
  if localTs < upstreamTs then (.stale, upstreamTs - localTs)
  else if localTs > upstreamTs then (.localAhead, localTs - upstreamTs)
  else (.fresh, 0)

/-- One reported result of `check_input`: the classification banner together
with the instants it shows.  The rendered strings are the `astimezone()`
displays (absent for the unresolvable banner, which prints no instants). -/
structure CheckResult where
  name : String
  owner : String
  repo : String
  outcome : Outcome
  localEpoch : Option Int
  upstreamEpoch : Option Int
  lag : Int
  localRendered : Option String
  upstreamRendered : Option String
deriving DecidableEq, Repr

/-- The timezone-independent core of a result: everything except the two
rendered display strings. -/
def CheckResult.core (r : CheckResult) :
    String × String × String × Outcome × Option Int × Option Int × Int :=
  (r.name, r.owner, r.repo, r.outcome, r.localEpoch, r.upstreamEpoch, r.lag)

/-- Outcome and lag of a per-node run, `none` when the node produced no
result (silent skip or suppressed) or the run raised. -/
def outcomeLagOf : Except PyExc (Option CheckResult) → Option (Outcome × Int)
  | .ok (some r) => some (r.outcome, r.lag)
  | _ => none

/-- `check_input` (src/checkUp2Date_v3.py lines 57-104), with the host
timezone `tz` as an explicit parameter feeding only the rendered strings.
Result `.ok none` is the silent path (skip, suppressed-by-filter, or
suppressed unresolvable banner in `only_outdated` mode); `.ok (some r)` is a
printed report; `.error e` is an exception escaping `check_input`. -/
def check_input (tz : Int) (up : Upstream) (name : String) (nd : NodeData)
    (token : Option String) (only_outdated : Bool) :
    Except PyExc (Option CheckResult) × List Request :=
  match parseNode nd with
  | none => (.ok none, [])
  | some (ts, owner, repo, hint) =>
    match get_upstream_info up owner repo hint token with
    | (.error e, reqs) => (.error e, reqs)
    | (.ok none, reqs) =>
      if only_outdated then (.ok none, reqs)
      else
        (.ok (some ⟨name, owner, repo, .unresolvable, none, none, 0,
                    none, none⟩), reqs)
    | (.ok (some uts), reqs) =>
      let is_outdated := decide (ts < uts)
      if only_outdated && !is_outdated then (.ok none, reqs)
      else
        let cmp := compareInstants ts uts
        (.ok (some ⟨name, owner, repo, cmp.1, some ts, some uts, cmp.2,
                    some (renderInstant tz ts),
                    some (renderInstant tz uts)⟩), reqs)

/-! ### The batch loop of `main` -/

/-- The lock structure as the batch loop reads it: the optional top-level
`root` name (`lock_data.get("root", "root")`) and the `nodes` object as an
association list in iteration order (JSON object keys are unique). -/
structure LockData where
  root : Option String
  nodes : List (String × NodeData)
deriving DecidableEq, Repr

/-- The effective root-node name: `lock_data.get("root", "root")`. -/
def rootName (ld : LockData) : String := ld.root.getD "root"

/-- `root_inputs` of `main` (src/checkUp2Date_v3.py lines 153-156):
the root node's `inputs` mapping, with every missing layer defaulted to the
empty mapping by the `.get(..., {})` chain. -/
def rootInputsOf (ld : LockData) : List (String × InputVal) :=
  match ld.nodes.lookup (rootName ld) with
  | none => []
  | some nd => nd.inputs

/-- `target_nodes` of `main` (lines 159-161): the root's inputs when
non-empty, else every entry of `nodes`.  Each pair carries the display name
and the raw mapped value (`none` when the value is not a string — in the
fallback branch the value is the node object itself, so it is never a
string). -/
def targetPairs (ld : LockData) : List (String × Option String) :=
  if rootInputsOf ld ≠ [] then
    (rootInputsOf ld).map (fun p => (p.1, p.2.asStr))
  else
    ld.nodes.map (fun p => (p.1, none))

/-- The node set actually passed to `check_input` by the loop of lines
166-172: `actual_node_name = node_key if isinstance(node_key, str) else
name`, kept only when that name is present in `nodes`.  Pairs are
(display name, actual node name). -/
def processedPairs (ld : LockData) : List (String × String) :=
  (targetPairs ld).filterMap (fun p =>
    let actual := p.2.getD p.1
    if (ld.nodes.lookup actual).isSome then some (p.1, actual) else none)

/-- The (display name, node data) sequence fed to `check_input` in batch
mode. -/
def resolveTargets (ld : LockData) : List (String × NodeData) :=
  (targetPairs ld).filterMap (fun p =>
    let actual := p.2.getD p.1
    (ld.nodes.lookup actual).map (fun nd => (p.1, nd)))

/-- Observable outcome of a batch run: the reported results in order, the
requests issued in order, and the exception that aborted the loop, if any
(an uncaught exception in `check_input` propagates out of `main`'s loop and
ends the process, leaving later nodes unprocessed). -/
structure BatchOut where
  results : List CheckResult
  requests : List Request
  aborted : Option PyExc
deriving DecidableEq, Repr

/-- The `for` loop of `main` over the targets (lines 166-172): each node's
`check_input` runs to completion before the next starts; an uncaught
exception stops everything. -/
def runBatch (tz : Int) (up : Upstream) (token : Option String)
    (only_outdated : Bool) : List (String × NodeData) → BatchOut
  | [] => ⟨[], [], none⟩
  | (name, nd) :: rest =>
    match check_input tz up name nd token only_outdated with
    | (.error e, reqs) => ⟨[], reqs, some e⟩
    | (.ok r, reqs) =>
      let b := runBatch tz up token only_outdated rest
      ⟨r.toList ++ b.results, reqs ++ b.requests, b.aborted⟩

/-- Batch mode of `main` (`-a` / `-A`): derive the targets from the lock
structure and run the loop. -/
def check_all (tz : Int) (up : Upstream) (ld : LockData)
    (token : Option String) (only_outdated : Bool) : BatchOut :=
  runBatch tz up token only_outdated (resolveTargets ld)

/-! ### Concrete fixtures used by witnesses and counterexamples -/

/-- A well-formed github node pinned at epoch second 1000 tracking branch
"main" (the node of the spec's worked scenario). -/
def exNode1000 : NodeData :=
  ⟨some "github", some 1000, some "o", some "r", some "main", []⟩

/-- A github node whose `locked.owner` key is missing. -/
def exNodeNoOwner : NodeData :=
  ⟨some "github", some 5, none, some "r", none, []⟩

/-- A node of an unsupported source type (`locked.type = "tarball"`). -/
def exNodeTarball : NodeData :=
  ⟨some "tarball", some 1000, some "o", some "r", none, []⟩

/-- An upstream whose branch endpoint reports committer date
1970-01-01T00:16:41Z (epoch 1001); the metadata endpoint fails (it is never
consulted when a branch hint is present). -/
def exUpOneSec : Upstream :=
  ⟨fun _ _ _ => .error (), fun _ _ _ _ => .ok ⟨some "1970-01-01T00:16:41Z"⟩⟩

/-- An upstream whose metadata response carries no `default_branch` field
and whose branch endpoint fails. -/
def exUpNoDefault : Upstream :=
  ⟨fun _ _ _ => .ok ⟨none⟩, fun _ _ _ _ => .error ()⟩

/-- An upstream whose branch endpoint answers with a malformed committer
date. -/
def exUpBadDate : Upstream :=
  ⟨fun _ _ _ => .error (), fun _ _ _ _ => .ok ⟨some "garbage"⟩⟩

/-- A lock structure whose root lists two direct inputs `a` and `b`, both
well-formed github nodes. -/
def exLockTwo : LockData :=
  ⟨some "root",
   [("root", ⟨none, none, none, none, none, [("a", .str "a"), ("b", .str "b")]⟩),
    ("a", exNode1000),
    ("b", exNode1000)]⟩

/-- A lock structure whose only node is the root itself, a github node with
an empty `inputs` mapping (so batch mode takes the fallback branch). -/
def exLockRootOnly : LockData :=
  ⟨some "root", [("root", ⟨some "github", some 7, some "o", some "r", none, []⟩)]⟩

/-! ### Helper lemmas -/

/-- The branch phase always issues exactly one request: the branch fetch it
was asked for. -/
lemma branchPhase_requests (up : Upstream) (o r b : String) (a : Option String) :
    (branchPhase up o r b a).2 = [.branch o r b a] := by
  cases h1 : up.branch o r b a with
  | error e => simp [branchPhase, h1]
  | ok data =>
    cases h2 : data.committerDate with
    | none => simp [branchPhase, h1, h2]
    | some ds =>
      cases h3 : parseTimestamp ds <;> simp [branchPhase, h1, h2, h3]

/-- Every request issued by `get_upstream_info` carries exactly the header
derived from the resolved token. -/
lemma get_upstream_info_auth (up : Upstream) (o r : String)
    (hint tok : Option String) :
    ∀ req ∈ (get_upstream_info up o r hint tok).2,
      req.authOf = authHeader tok := by
  intro req hreq
  unfold get_upstream_info at hreq
  by_cases hh : pyTruthy hint = true
  · rw [if_pos hh, branchPhase_requests] at hreq
    simp only [List.mem_singleton] at hreq
    subst hreq; rfl
  · rw [if_neg hh] at hreq
    cases hmeta : up.meta o r (authHeader tok) with
    | error e =>
      rw [hmeta] at hreq
      simp only [List.mem_singleton] at hreq
      subst hreq; rfl
    | ok m =>
      rw [hmeta] at hreq
      simp only [branchPhase_requests, List.mem_cons, List.mem_singleton,
        List.not_mem_nil, or_false] at hreq
      rcases hreq with h | h <;> (subst h; rfl)

/-- A truthy `authHeader` comes from a non-empty token and is that token
prefixed with the scheme word. -/
lemma authHeader_eq_some (tok : Option String) (s : String)
    (h : authHeader tok = some s) :
    ∃ t, tok = some t ∧ t ≠ "" ∧ s = "token " ++ t := by
  unfold authHeader at h
  by_cases hp : pyTruthy tok = true
  · rw [if_pos hp] at h
    cases tok with
    | none => simp [pyTruthy] at hp
    | some t =>
      refine ⟨t, rfl, ?_, ?_⟩
      · simpa [pyTruthy] using hp
      · simpa using h.symm
  · rw [if_neg hp] at h
    cases h

/-- A key that occurs in an association list is found by `lookup`. -/
lemma lookup_isSome_of_mem (l : List (String × NodeData)) (p : String × NodeData)
    (hp : p ∈ l) : (l.lookup p.1).isSome := by
  induction l with
  | nil => cases hp
  | cons head tail ih =>
    obtain ⟨k, v⟩ := head
    rcases List.mem_cons.mp hp with h | h
    · subst h; simp [List.lookup]
    · by_cases he : p.1 == k
      · simp [List.lookup, he]
      · simp only [List.lookup, he]
        exact ih h

/-- When every key of a key-value list is found in the lookup table, the
membership-guarded diagonal `filterMap` is a plain `map`. -/
lemma filterMap_lookup_all (big : List (String × NodeData)) :
    ∀ l : List (String × NodeData),
      (∀ p ∈ l, (big.lookup p.1).isSome) →
      (l.filterMap fun p =>
          if (big.lookup p.1).isSome then some (p.1, p.1) else none)
        = l.map fun p => (p.1, p.1)
  | [], _ => rfl
  | q :: t, hall => by
    have hq := hall q (List.mem_cons_self q t)
    have ht := filterMap_lookup_all big t
      (fun p hp => hall p (List.mem_cons_of_mem q hp))
    simp [List.filterMap_cons, hq, ht]

/-- The per-result effect of the `only_outdated` flag: keep a printed result
only when its outcome is `stale`, pass skips and exceptions through. -/
def filterStaleRes : Except PyExc (Option CheckResult) → Except PyExc (Option CheckResult)
  | .ok (some r) => .ok (if r.outcome = .stale then some r else none)
  | x => x

/-- `check_input` in `only_outdated` mode issues the same requests as the
unfiltered mode and reports exactly the stale results the unfiltered mode
reports. -/
lemma check_input_only_outdated (tz : Int) (up : Upstream) (name : String)
    (nd : NodeData) (token : Option String) :
    check_input tz up name nd token true
      = (filterStaleRes (check_input tz up name nd token false).1,
         (check_input tz up name nd token false).2) := by
  cases hp : parseNode nd with
  | none => simp [check_input, hp, filterStaleRes]
  | some v =>
    obtain ⟨ts, o, r, hint⟩ := v
    cases hres : get_upstream_info up o r hint token with
    | mk res reqs =>
      cases res with
      | error e => simp [check_input, hp, hres, filterStaleRes]
      | ok w =>
        cases w with
        | none => simp [check_input, hp, hres, filterStaleRes]
        | some uts =>
          by_cases hlt : ts < uts
          · simp [check_input, hp, hres, filterStaleRes, hlt, compareInstants]
          · by_cases hgt : ts > uts <;>
              simp [check_input, hp, hres, filterStaleRes, hlt, hgt,
                compareInstants]

/-- Batch form of the filter property, by induction over the targets. -/
lemma runBatch_only_outdated (tz : Int) (up : Upstream) (token : Option String) :
    ∀ targets : List (String × NodeData),
      runBatch tz up token true targets
        = ⟨(runBatch tz up token false targets).results.filter
             (fun r => decide (r.outcome = .stale)),
           (runBatch tz up token false targets).requests,
           (runBatch tz up token false targets).aborted⟩
  | [] => rfl
  | (name, nd) :: rest => by
    have hci := check_input_only_outdated tz up name nd token
    have ih := runBatch_only_outdated tz up token rest
    cases hfc : check_input tz up name nd token false with
    | mk res reqs =>
      rw [hfc] at hci
      cases res with
      | error e => simp [runBatch, hci, hfc, filterStaleRes]
      | ok w =>
        cases w with
        | none => simp [runBatch, hci, hfc, filterStaleRes, ih]
        | some r =>
          by_cases hst : r.outcome = .stale <;>
            simp [runBatch, hci, hfc, filterStaleRes, hst, ih]

/-- A node of supported type missing one of its locked fields parses to the
silent skip. -/
lemma parseNode_missing_field (nd : NodeData)
    (hty : nd.lockedType = some "github")
    (hmiss : nd.lastModified = none ∨ nd.owner = none ∨ nd.repo = none) :
    parseNode nd = none := by
  cases hlm : nd.lastModified <;> cases how : nd.owner <;>
    cases hre : nd.repo <;> simp_all [parseNode]

/-! ### Claims -/

/-- C1: for every pair of integer instants reaching the comparison,
`local < upstream` gives `Stale` with lag `upstream - local`,
`local > upstream` gives `LocalAhead` with lag `local - upstream`, equality
gives `Fresh` with zero lag, with no tolerance window; and the worked
scenario (locked 1000 against wire instant 1970-01-01T00:16:41Z = 1001)
ends `Stale` with a lag of exactly 1 second. -/
theorem C1_comparator_exact (l u : Int) :
    (l < u → compareInstants l u = (.stale, u - l))
  ∧ (l > u → compareInstants l u = (.localAhead, l - u))
  ∧ (l = u → compareInstants l u = (.fresh, 0))
  ∧ outcomeLagOf (check_input 0 exUpOneSec "n" exNode1000 none false).1
      = some (.stale, 1) := by
  refine ⟨?_, ?_, ?_, rfl⟩
  · intro h; simp [compareInstants, h]
  · intro h; simp [compareInstants, h, lt_asymm h]
  · intro h; subst h; simp [compareInstants]

/-- Witness for C1: the comparator evaluated on concrete instants through
the theorem. -/
theorem C1_comparator_exact_witness :
    compareInstants 1000 1001 = (.stale, 1)
    ∧ compareInstants 1001 1000 = (.localAhead, 1)
    ∧ compareInstants 1000 1000 = (.fresh, 0) :=
  ⟨(C1_comparator_exact 1000 1001).1 (by decide),
   (C1_comparator_exact 1001 1000).2.1 (by decide),
   (C1_comparator_exact 1000 1000).2.2.1 rfl⟩

/-- C3 counterexample: a supported-type node with a missing `owner` field is
silently dropped — `check_input` produces no result at all (and issues no
fetch), not an `Unresolvable` classification as the claim states. -/
theorem C3_counterexample :
    exNodeNoOwner.lockedType = some "github"
    ∧ exNodeNoOwner.owner = none
    ∧ check_input 0 exUpOneSec "n" exNodeNoOwner none false = (.ok none, [])
    ∧ outcomeLagOf (check_input 0 exUpOneSec "n" exNodeNoOwner none false).1
        = none :=
  ⟨rfl, rfl, rfl, rfl⟩

/-- C3 amended: a node of the supported source type whose `lastModified`,
`owner` or `repo` field is missing is skipped silently, exactly like a
non-github node: no result (not even `Unresolvable`) and no fetch. -/
theorem C3_amended_silent_skip (tz : Int) (up : Upstream) (name : String)
    (nd : NodeData) (token : Option String) (oo : Bool)
    (hty : nd.lockedType = some "github")
    (hmiss : nd.lastModified = none ∨ nd.owner = none ∨ nd.repo = none) :
    check_input tz up name nd token oo = (.ok none, []) := by
  simp [check_input, parseNode_missing_field nd hty hmiss]

/-- Witness for the amended C3. -/
theorem C3_amended_silent_skip_witness :
    check_input 0 exUpOneSec "n" exNodeNoOwner none false = (.ok none, []) :=
  C3_amended_silent_skip 0 exUpOneSec "n" exNodeNoOwner none false rfl
    (Or.inr (Or.inl rfl))

/-- C4: for every batch, the stale-only run reports exactly the subsequence
of the unfiltered run's results whose outcome is `Stale`, in order, while
issuing exactly the same requests (the filter is pure output; fetches still
occur for every eligible node), and aborts at the same point if at all. -/
theorem C4_stale_only_filter (tz : Int) (up : Upstream) (ld : LockData)
    (token : Option String) :
    check_all tz up ld token true
      = ⟨(check_all tz up ld token false).results.filter
           (fun r => decide (r.outcome = .stale)),
         (check_all tz up ld token false).requests,
         (check_all tz up ld token false).aborted⟩ :=
  runBatch_only_outdated tz up token (resolveTargets ld)

/-- C5: a present, non-empty branch hint is used directly: the only request
`get_upstream_info` issues is the branch fetch for the hint itself — no
default-branch metadata fetch ever happens, so a discovered default can
never override the explicit pin. -/
theorem C5_hint_no_metadata_fetch (up : Upstream) (o r h : String)
    (tok : Option String) (hne : h ≠ "") :
    (get_upstream_info up o r (some h) tok).2
      = [Request.branch o r h (authHeader tok)] := by
  have hp : pyTruthy (some h) = true := by simp [pyTruthy, hne]
  simp [get_upstream_info, hp, branchPhase_requests]

/-- Witness for C5 at a concrete hinted node. -/
theorem C5_hint_no_metadata_fetch_witness :
    (get_upstream_info exUpOneSec "o" "r" (some "main") none).2
      = [Request.branch "o" "r" "main" none] :=
  C5_hint_no_metadata_fetch exUpOneSec "o" "r" "main" none (by decide)

/-- C7 counterexample: with no hint and a metadata response that lacks
`default_branch`, the resolver does NOT stop with a resolution failure — it
proceeds to a branch fetch whose branch name is the interpolated literal
"None". -/
theorem C7_counterexample :
    exUpNoDefault.meta "o" "r" none = .ok ⟨none⟩
    ∧ (get_upstream_info exUpNoDefault "o" "r" none none).2
        = [Request.repoMeta "o" "r" none, Request.branch "o" "r" "None" none] :=
  ⟨rfl, rfl⟩

/-- C7 amended: when no hint is given and the metadata response lacks the
default-branch field, `branch` silently becomes the absent value and the
code proceeds to fetch `branches/None`; only that fetch's failure (the usual
outcome for a nonexistent branch) then degrades the node to unresolvable. -/
theorem C7_amended_missing_default (up : Upstream) (o r : String)
    (tok : Option String)
    (hmeta : up.meta o r (authHeader tok) = .ok ⟨none⟩) :
    (get_upstream_info up o r none tok).2
      = [Request.repoMeta o r (authHeader tok),
         Request.branch o r "None" (authHeader tok)]
    ∧ (up.branch o r "None" (authHeader tok) = .error () →
        (get_upstream_info up o r none tok).1 = .ok none) := by
  constructor
  · simp [get_upstream_info, pyTruthy, hmeta, pyStrOfOpt, branchPhase_requests]
  · intro hbr
    simp [get_upstream_info, pyTruthy, hmeta, pyStrOfOpt, branchPhase, hbr]

/-- Witness for the amended C7. -/
theorem C7_amended_missing_default_witness :
    (get_upstream_info exUpNoDefault "o" "r" none none).2
      = [Request.repoMeta "o" "r" none, Request.branch "o" "r" "None" none]
    ∧ (get_upstream_info exUpNoDefault "o" "r" none none).1 = .ok none :=
  ⟨(C7_amended_missing_default exUpNoDefault "o" "r" none rfl).1,
   (C7_amended_missing_default exUpNoDefault "o" "r" none rfl).2 rfl⟩

/-- C9: a node whose `locked.type` is present but not "github" produces no
result at all — `check_input` returns the silent skip with no requests, and
the node contributes nothing to the batch output. -/
theorem C9_unsupported_type_skipped (tz : Int) (up : Upstream) (name : String)
    (nd : NodeData) (token : Option String) (oo : Bool) (t : String)
    (hty : nd.lockedType = some t) (hne : t ≠ "github") :
    check_input tz up name nd token oo = (.ok none, [])
    ∧ ∀ rest, runBatch tz up token oo ((name, nd) :: rest)
        = runBatch tz up token oo rest := by
  have hp : parseNode nd = none := by simp [parseNode, hty, hne]
  refine ⟨by simp [check_input, hp], fun rest => ?_⟩
  simp [runBatch, check_input, hp]

/-- Witness for C9 at a tarball node. -/
theorem C9_unsupported_type_skipped_witness :
    check_input 0 exUpOneSec "n" exNodeTarball none false = (.ok none, [])
    ∧ runBatch 0 exUpOneSec none false [("n", exNodeTarball)]
        = runBatch 0 exUpOneSec none false [] :=
  ⟨(C9_unsupported_type_skipped 0 exUpOneSec "n" exNodeTarball none false
      "tarball" rfl (by decide)).1,
   (C9_unsupported_type_skipped 0 exUpOneSec "n" exNodeTarball none false
      "tarball" rfl (by decide)).2 []⟩

/-- C8 counterexample: in a lock structure where the root's input list is
empty, the fallback of v3 iterates over every node INCLUDING the root
itself: the root node is processed (it even yields a result when it happens
to be a well-formed github node), while the claim says the processed set
excludes the root. -/
theorem C8_counterexample :
    rootInputsOf exLockRootOnly = []
    ∧ processedPairs exLockRootOnly = [("root", "root")]
    ∧ (check_all 0 exUpOneSec exLockRootOnly none false).results.map
        (fun r => r.name) = ["root"] :=
  ⟨rfl, rfl, rfl⟩

/-- C8 amended: when the root's declared input list is non-empty, the
processed set is exactly that list mapped through one indirection (a
non-string node key falls back to the input name, and an entry whose
resolved name is absent from the node mapping is dropped); when it is
absent or empty, the fallback processes every node of the lock structure
INCLUDING the root itself (v3 does not exclude the root; v2 did), each
mapped to its own name, still subject to the per-node source-type filter. -/
theorem C8_amended_node_set (ld : LockData) :
    (rootInputsOf ld = [] →
        processedPairs ld = ld.nodes.map (fun p => (p.1, p.1)))
  ∧ (rootInputsOf ld ≠ [] →
        processedPairs ld = (rootInputsOf ld).filterMap (fun p =>
          if (ld.nodes.lookup ((p.2.asStr).getD p.1)).isSome
          then some (p.1, (p.2.asStr).getD p.1) else none)) := by
  constructor
  · intro h
    have hall : ∀ p ∈ ld.nodes, (ld.nodes.lookup p.1).isSome :=
      fun p hp => lookup_isSome_of_mem ld.nodes p hp
    have hfm := filterMap_lookup_all ld.nodes ld.nodes hall
    simpa [processedPairs, targetPairs, h, List.filterMap_map,
      Function.comp] using hfm
  · intro h
    unfold processedPairs targetPairs
    rw [if_pos h, List.filterMap_map]
    rfl

/-- Witness for the amended C8: the fallback case on a root-only lock and
the explicit-inputs case on a two-input lock. -/
theorem C8_amended_node_set_witness :
    processedPairs exLockRootOnly
      = exLockRootOnly.nodes.map (fun p => (p.1, p.1))
    ∧ processedPairs exLockTwo
      = (rootInputsOf exLockTwo).filterMap (fun p =>
          if (exLockTwo.nodes.lookup ((p.2.asStr).getD p.1)).isSome
          then some (p.1, (p.2.asStr).getD p.1) else none) :=
  ⟨(C8_amended_node_set exLockRootOnly).1 rfl,
   (C8_amended_node_set exLockTwo).2 (by decide)⟩

/-- C6: a truthy (non-empty) environment token wins and the helper is not
invoked; otherwise the helper's answer is used; an absent helper, a
non-zero exit, or whitespace-only output all yield a falsy credential that
produces no `Authorization` header (silently, never an error); and any
`Authorization` header actually sent carries a non-empty bearer token —
never the bare scheme word with an empty credential. -/
theorem C6_token_resolution (env : Option String) (gh : GhCliBehavior) :
    (pyTruthy env = true → resolve_token env gh = (env, false))
  ∧ (pyTruthy env = false →
        resolve_token env gh = (get_token_from_gh_cli gh, true))
  ∧ ((gh = .absent ∨ gh = .exitNonZero
        ∨ ∃ out, gh = .success out ∧ stripStr out = "") →
        authHeader (get_token_from_gh_cli gh) = none)
  ∧ (∀ up o r hint req s,
        req ∈ (get_upstream_info up o r hint (resolve_token env gh).1).2 →
        req.authOf = some s →
        ∃ t, t ≠ "" ∧ s = "token " ++ t) := by
  refine ⟨?_, ?_, ?_, ?_⟩
  · intro h; simp [resolve_token, h]
  · intro h; simp [resolve_token, h]
  · intro h
    rcases h with h | h | ⟨out, hgh, htrim⟩
    · subst h; rfl
    · subst h; rfl
    · subst hgh
      simp [get_token_from_gh_cli, authHeader, pyTruthy, htrim]
  · intro up o r hint req s hmem hauth
    have hα := get_upstream_info_auth up o r hint (resolve_token env gh).1 req hmem
    rw [hα] at hauth
    obtain ⟨t, _, ht, hs⟩ := authHeader_eq_some _ s hauth
    exact ⟨t, ht, hs⟩

/-- Witness for C6: each clause applied at concrete credentials. -/
theorem C6_token_resolution_witness :
    resolve_token (some "sekrit") .absent = (some "sekrit", false)
    ∧ resolve_token none .exitNonZero
        = (get_token_from_gh_cli .exitNonZero, true)
    ∧ authHeader (get_token_from_gh_cli (.success "  ")) = none
    ∧ ∃ t, t ≠ "" ∧ "token sekrit" = "token " ++ t :=
  ⟨(C6_token_resolution (some "sekrit") .absent).1 (by decide),
   (C6_token_resolution none .exitNonZero).2.1 (by decide),
   (C6_token_resolution none (.success "  ")).2.2.1
     (Or.inr (Or.inr ⟨"  ", rfl, by decide⟩)),
   (C6_token_resolution (some "sekrit") .absent).2.2.2 exUpOneSec "o" "r"
     (some "main") (Request.branch "o" "r" "main" (some "token sekrit"))
     "token sekrit" (by decide) rfl⟩

/-- C2 counterexample: in a batch of two eligible nodes where the upstream
reports a malformed committer date, the first node's parse raises an
uncaught `ValueError` that aborts the whole run — no result is produced and
the second node is never fetched (only one request was issued), contradicting
"the batch continues with the remaining nodes". -/
theorem C2_counterexample :
    (check_all 0 exUpBadDate exLockTwo none false).aborted
        = some .valueError
    ∧ (check_all 0 exUpBadDate exLockTwo none false).results = []
    ∧ (check_all 0 exUpBadDate exLockTwo none false).requests
        = [.branch "o" "r" "main" none] :=
  ⟨rfl, rfl, rfl⟩

/-- C2 amended: a per-node transport/HTTP fetch failure (the
`RequestException` family) degrades only that node to `Unresolvable` and
the batch continues past it; but a malformed upstream timestamp raises an
uncaught `ValueError` (the except clause catches only `RequestException`)
which aborts the entire run, leaving the remaining nodes unprocessed. -/
theorem C2_amended_failure_modes :
    (∀ (up : Upstream) (o r h : String) (tok : Option String), h ≠ "" →
        up.branch o r h (authHeader tok) = .error () →
        (get_upstream_info up o r (some h) tok).1 = .ok none)
  ∧ (∀ (tz : Int) (up : Upstream) (name : String) (nd : NodeData)
        (token : Option String) (ts : Int) (o r : String)
        (hint : Option String),
        parseNode nd = some (ts, o, r, hint) →
        (get_upstream_info up o r hint token).1 = .ok none →
        outcomeLagOf (check_input tz up name nd token false).1
          = some (.unresolvable, 0))
  ∧ (∀ (up : Upstream) (o r h : String) (tok : Option String) (ds : String),
        h ≠ "" →
        up.branch o r h (authHeader tok) = .ok ⟨some ds⟩ →
        parseTimestamp ds = none →
        (get_upstream_info up o r (some h) tok).1 = .error .valueError)
  ∧ (∀ (tz : Int) (up : Upstream) (token : Option String) (oo : Bool)
        (name : String) (nd : NodeData) (v : Option CheckResult)
        (reqs : List Request) (rest : List (String × NodeData)),
        check_input tz up name nd token oo = (.ok v, reqs) →
        runBatch tz up token oo ((name, nd) :: rest)
          = ⟨v.toList ++ (runBatch tz up token oo rest).results,
             reqs ++ (runBatch tz up token oo rest).requests,
             (runBatch tz up token oo rest).aborted⟩)
  ∧ (∀ (tz : Int) (up : Upstream) (token : Option String) (oo : Bool)
        (name : String) (nd : NodeData) (e : PyExc) (reqs : List Request)
        (rest : List (String × NodeData)),
        check_input tz up name nd token oo = (.error e, reqs) →
        runBatch tz up token oo ((name, nd) :: rest) = ⟨[], reqs, some e⟩) := by
  refine ⟨?_, ?_, ?_, ?_, ?_⟩
  · intro up o r h tok hne hbr
    have hp : pyTruthy (some h) = true := by simp [pyTruthy, hne]
    simp [get_upstream_info, hp, branchPhase, hbr]
  · intro tz up name nd token ts o r hint hparse hfetch
    cases hg : get_upstream_info up o r hint token with
    | mk res reqs =>
      rw [hg] at hfetch
      simp only at hfetch
      subst hfetch
      simp [check_input, hparse, hg, outcomeLagOf]
  · intro up o r h tok ds hne hbr hds
    have hp : pyTruthy (some h) = true := by simp [pyTruthy, hne]
    simp [get_upstream_info, hp, branchPhase, hbr, hds]
  · intro tz up token oo name nd v reqs rest hc
    simp [runBatch, hc]
  · intro tz up token oo name nd e reqs rest hc
    simp [runBatch, hc]

/-- Witness for the amended C2: each clause at a concrete node/upstream. -/
theorem C2_amended_failure_modes_witness :
    (get_upstream_info exUpNoDefault "o" "r" (some "main") none).1 = .ok none
    ∧ outcomeLagOf (check_input 0 exUpNoDefault "n" exNode1000 none false).1
        = some (.unresolvable, 0)
    ∧ (get_upstream_info exUpBadDate "o" "r" (some "main") none).1
        = .error .valueError
    ∧ runBatch 0 exUpNoDefault none false [("n", exNode1000)]
        = ⟨(some (⟨"n", "o", "r", .unresolvable, none, none, 0, none,
              none⟩ : CheckResult)).toList
             ++ (runBatch 0 exUpNoDefault none false []).results,
           [.branch "o" "r" "main" none]
             ++ (runBatch 0 exUpNoDefault none false []).requests,
           (runBatch 0 exUpNoDefault none false []).aborted⟩
    ∧ runBatch 0 exUpBadDate none false [("n", exNode1000)]
        = ⟨[], [.branch "o" "r" "main" none], some .valueError⟩ :=
  ⟨C2_amended_failure_modes.1 exUpNoDefault "o" "r" "main" none
     (by decide) rfl,
   C2_amended_failure_modes.2.1 0 exUpNoDefault "n" exNode1000 none 1000
     "o" "r" (some "main") rfl rfl,
   C2_amended_failure_modes.2.2.1 exUpBadDate "o" "r" "main" none "garbage"
     (by decide) rfl rfl,
   C2_amended_failure_modes.2.2.2.1 0 exUpNoDefault none false "n"
     exNode1000
     (some ⟨"n", "o", "r", .unresolvable, none, none, 0, none, none⟩)
     [.branch "o" "r" "main" none] [] rfl,
   C2_amended_failure_modes.2.2.2.2 0 exUpBadDate none false "n" exNode1000
     .valueError [.branch "o" "r" "main" none] [] rfl⟩

/-- C10: the classification and lag depend only on the two integer epoch
values: runs under any two host timezones agree on everything except the
rendered display strings (outcome, lag, epochs, names and the issued
requests are identical). -/
theorem C10_timezone_invariance (tz1 tz2 : Int) (up : Upstream)
    (name : String) (nd : NodeData) (token : Option String) (oo : Bool) :
    (check_input tz1 up name nd token oo).1.map (Option.map CheckResult.core)
      = (check_input tz2 up name nd token oo).1.map
          (Option.map CheckResult.core)
    ∧ (check_input tz1 up name nd token oo).2
      = (check_input tz2 up name nd token oo).2 := by
  cases hp : parseNode nd with
  | none => simp [check_input, hp]
  | some v =>
    obtain ⟨ts, o, r, hint⟩ := v
    cases hres : get_upstream_info up o r hint token with
    | mk res reqs =>
      cases res with
      | error e => simp [check_input, hp, hres]
      | ok w =>
        cases w with
        | none => cases oo <;> simp [check_input, hp, hres]
        | some uts =>
          by_cases hlt : ts < uts <;> cases oo <;>
            simp [check_input, hp, hres, hlt, CheckResult.core, Except.map]

end Flake2Date
